import Mathlib

/-!
Shallow embedding of the affiliate-commerce KPI engine and data-quality
checker (src/analytics.py): the SafeDivide primitive, KPIEngine
(calculate_kpis, get_partner_performance, get_campaign_performance) and
DataQuality.run_checks, together with proofs settling the frozen claims.

Numbers are modelled exactly: machine floats become rationals, and the
outcome of an unguarded float division is an explicit value that can be
finite, NaN, or signed infinity, mirroring IEEE semantics of the
vectorized divisions in the grouped performance functions.
-/

namespace Affiliate

/-- Outcome of a float computation: a finite rational, not-a-number, or a
signed infinity.  Models the values a pandas float cell can hold. -/
inductive FloatVal where
  | fin (q : ℚ)
  | nan
  | posInf
  | negInf
deriving DecidableEq

/-- Unguarded float division, as performed by the vectorized ratio
assignments in get_partner_performance and get_campaign_performance:
x / 0 is NaN when x = 0 and ±infinity otherwise (sign of x), and an
exact rational quotient when the denominator is nonzero. -/
def fdiv (a b : ℚ) : FloatVal :=
  if b = 0 then
    if a = 0 then .nan
    else if 0 < a then .posInf
    else .negInf
  else .fin (a / b)

/-- One row of the joined RecordSet produced by the DataLoader: the
columns selected by the SQL join in DataLoader.get_data, with the
orders/revenue/commission NaNs already filled by the loader.  The
embedded record type is total, so a loaded row carries no missing cell. -/
structure Record where
  date : String := ""
  campaign_id : String := ""
  device_type : String := ""
  channel : String := ""
  impressions : Nat := 0
  clicks : Nat := 0
  orders : Nat := 0
  revenue : ℚ := 0
  commission_paid : ℚ := 0
  partner_name : String := ""
  vertical : String := ""
  campaign_name : String := ""
  landing_page_variant : String := ""
deriving DecidableEq

/-- The five summed base metrics of calculate_kpis (df.agg with sum). -/
structure MetricTotals where
  impressions : ℚ
  clicks : ℚ
  orders : ℚ
  revenue : ℚ
  commission_paid : ℚ
deriving DecidableEq

/-- The five overall ratios returned by calculate_kpis.  Every ratio goes
through safe_div, so each is an ordinary (finite) rational. -/
structure KPIBundle where
  CTR : ℚ
  Conversion_Rate : ℚ
  EPC : ℚ
  AOV : ℚ
  ROI : ℚ
deriving DecidableEq

/-- safe_div from KPIEngine.calculate_kpis: a / b if b > 0 else 0.0. -/
def safe_div (a b : ℚ) : ℚ :=
  if 0 < b then a / b else 0

/-- Sum of a rational-valued field over a list of records. -/
def sumQ (f : Record → ℚ) (rs : List Record) : ℚ :=
  (rs.map f).sum

/-- df.agg of the five base metrics over the whole RecordSet. -/
def aggTotals (df : List Record) : MetricTotals where
  impressions := sumQ (fun r => (r.impressions : ℚ)) df
  clicks := sumQ (fun r => (r.clicks : ℚ)) df
  orders := sumQ (fun r => (r.orders : ℚ)) df
  revenue := sumQ (fun r => r.revenue) df
  commission_paid := sumQ (fun r => r.commission_paid) df

/-- KPIEngine.calculate_kpis: sums the five base metrics, then derives
the five ratios through safe_div, returning both. -/
def calculate_kpis (df : List Record) : KPIBundle × MetricTotals :=
  let metrics := aggTotals df
  ({ CTR := safe_div metrics.clicks metrics.impressions
     Conversion_Rate := safe_div metrics.orders metrics.clicks
     EPC := safe_div metrics.revenue metrics.clicks
     AOV := safe_div metrics.revenue metrics.orders
     ROI := safe_div (metrics.revenue - metrics.commission_paid) metrics.commission_paid },
   metrics)

/-- A cell of a grouped-performance dataframe: either a string (the key
columns) or a float value (metrics and ratios). -/
inductive CellVal where
  | str (s : String)
  | num (v : FloatVal)
deriving DecidableEq

/-- A dataframe row: column cells in order, each named. -/
abbrev Row := List (String × CellVal)

/-- Fetch the cell of the named column of a row. -/
def lookupCell (name : String) : Row → Option CellVal
  | [] => none
  | c :: cs => if c.1 = name then some c.2 else lookupCell name cs

/-- df.fillna(0) on one float value: NaN becomes 0, every other value
(finite or infinite) is left unchanged — pandas fillna does not treat
±infinity as missing. -/
def fillZero : FloatVal → FloatVal
  | .nan => .fin 0
  | v => v

/-- df.fillna(0) on one cell: string cells are untouched. -/
def fillZeroCell : CellVal → CellVal
  | .num v => .num (fillZero v)
  | c => c

/-- grouped.fillna(0): applied to every cell of the frame. -/
def fillZeroRow (row : Row) : Row :=
  row.map (fun c => (c.1, fillZeroCell c.2))

/-- The (partner_name, vertical) group key. -/
def partnerKey (r : Record) : String × String :=
  (r.partner_name, r.vertical)

/-- The (campaign_name, landing_page_variant) group key. -/
def campaignKey (r : Record) : String × String :=
  (r.campaign_name, r.landing_page_variant)

/-- The distinct group keys of the RecordSet in first-appearance order. -/
def firstKeys (keyf : Record → String × String) (df : List Record) :
    List (String × String) :=
  df.foldl (fun ks r => if keyf r ∈ ks then ks else ks ++ [keyf r]) []

/-- Ascending lexicographic order on pair-of-string group keys, the order
pandas uses when sorting a two-level group index. -/
def pairLe (a b : String × String) : Prop :=
  a.1 < b.1 ∨ (a.1 = b.1 ∧ a.2 ≤ b.2)

instance : DecidableRel pairLe := fun a b => by
  unfold pairLe; infer_instance

/-- groupby key ordering: pandas groupby(sort=True) emits the distinct
keys in ascending order. -/
def sortKeys (ks : List (String × String)) : List (String × String) :=
  List.insertionSort pairLe ks

/-- The records of one group: the rows of df whose key equals k, in
original order. -/
def groupOf (keyf : Record → String × String) (df : List Record)
    (k : String × String) : List Record :=
  df.filter (fun r => decide (keyf r = k))

/-- The row get_partner_performance builds for group key k before the
final fillna pass: key columns, the five summed metrics, then the five
vectorized ratios computed by unguarded division. -/
def partnerRawRow (df : List Record) (k : String × String) : Row :=
  [("partner_name", .str k.1),
   ("vertical", .str k.2),
   ("impressions", .num (.fin (sumQ (fun r => (r.impressions : ℚ)) (groupOf partnerKey df k)))),
   ("clicks", .num (.fin (sumQ (fun r => (r.clicks : ℚ)) (groupOf partnerKey df k)))),
   ("orders", .num (.fin (sumQ (fun r => (r.orders : ℚ)) (groupOf partnerKey df k)))),
   ("revenue", .num (.fin (sumQ (fun r => r.revenue) (groupOf partnerKey df k)))),
   ("commission_paid", .num (.fin (sumQ (fun r => r.commission_paid) (groupOf partnerKey df k)))),
   ("CTR", .num (fdiv (sumQ (fun r => (r.clicks : ℚ)) (groupOf partnerKey df k))
                      (sumQ (fun r => (r.impressions : ℚ)) (groupOf partnerKey df k)))),
   ("Conversion_Rate", .num (fdiv (sumQ (fun r => (r.orders : ℚ)) (groupOf partnerKey df k))
                                  (sumQ (fun r => (r.clicks : ℚ)) (groupOf partnerKey df k)))),
   ("EPC", .num (fdiv (sumQ (fun r => r.revenue) (groupOf partnerKey df k))
                      (sumQ (fun r => (r.clicks : ℚ)) (groupOf partnerKey df k)))),
   ("AOV", .num (fdiv (sumQ (fun r => r.revenue) (groupOf partnerKey df k))
                      (sumQ (fun r => (r.orders : ℚ)) (groupOf partnerKey df k)))),
   ("ROI", .num (fdiv (sumQ (fun r => r.revenue) (groupOf partnerKey df k)
                        - sumQ (fun r => r.commission_paid) (groupOf partnerKey df k))
                      (sumQ (fun r => r.commission_paid) (groupOf partnerKey df k))))]

/-- KPIEngine.get_partner_performance: group by (partner_name, vertical),
sum the five metrics, compute the ratios by unguarded division, then run
grouped.fillna(0) over the whole frame. -/
def get_partner_performance (df : List Record) : List Row :=
  (sortKeys (firstKeys partnerKey df)).map (fun k => fillZeroRow (partnerRawRow df k))

/-- The row get_campaign_performance builds for group key k before the
final fillna pass.  AOV is not computed in this variant. -/
def campaignRawRow (df : List Record) (k : String × String) : Row :=
  [("campaign_name", .str k.1),
   ("landing_page_variant", .str k.2),
   ("impressions", .num (.fin (sumQ (fun r => (r.impressions : ℚ)) (groupOf campaignKey df k)))),
   ("clicks", .num (.fin (sumQ (fun r => (r.clicks : ℚ)) (groupOf campaignKey df k)))),
   ("orders", .num (.fin (sumQ (fun r => (r.orders : ℚ)) (groupOf campaignKey df k)))),
   ("revenue", .num (.fin (sumQ (fun r => r.revenue) (groupOf campaignKey df k)))),
   ("commission_paid", .num (.fin (sumQ (fun r => r.commission_paid) (groupOf campaignKey df k)))),
   ("CTR", .num (fdiv (sumQ (fun r => (r.clicks : ℚ)) (groupOf campaignKey df k))
                      (sumQ (fun r => (r.impressions : ℚ)) (groupOf campaignKey df k)))),
   ("Conversion_Rate", .num (fdiv (sumQ (fun r => (r.orders : ℚ)) (groupOf campaignKey df k))
                                  (sumQ (fun r => (r.clicks : ℚ)) (groupOf campaignKey df k)))),
   ("EPC", .num (fdiv (sumQ (fun r => r.revenue) (groupOf campaignKey df k))
                      (sumQ (fun r => (r.clicks : ℚ)) (groupOf campaignKey df k)))),
   ("ROI", .num (fdiv (sumQ (fun r => r.revenue) (groupOf campaignKey df k)
                        - sumQ (fun r => r.commission_paid) (groupOf campaignKey df k))
                      (sumQ (fun r => r.commission_paid) (groupOf campaignKey df k))))]

/-- KPIEngine.get_campaign_performance: group by (campaign_name,
landing_page_variant); same pipeline as the partner variant but with no
AOV column. -/
def get_campaign_performance (df : List Record) : List Row :=
  (sortKeys (firstKeys campaignKey df)).map (fun k => fillZeroRow (campaignRawRow df k))

/-- The PASSED issue appended when no check fired. -/
def passedMsg : String :=
  "PASSED: All data quality checks passed."

/-- The CRITICAL issue of check 1 (clicks > impressions), with count. -/
def ctrCriticalMsg (n : Nat) : String :=
  "CRITICAL: Found " ++ toString n ++ " rows where Clicks > Impressions."

/-- The CRITICAL issue of check 2 (negative money), with count. -/
def negCriticalMsg (n : Nat) : String :=
  "CRITICAL: Found " ++ toString n ++ " rows with negative Revenue or Commission."

/-- The WARNING issue of check 3 (missing cells), with count. -/
def nullsWarningMsg (n : Nat) : String :=
  "WARNING: Found " ++ toString n ++ " missing values in dataset."

/-- The INFO issue of check 4 (revenue outliers), with count. -/
def outlierInfoMsg (n : Nat) : String :=
  "INFO: Detected " ++ toString n ++ " revenue outliers (>3 Std Dev)."

/-- Check 1 count: rows with clicks > impressions. -/
def invalidCtrCount (df : List Record) : Nat :=
  (df.filter (fun r => decide (r.impressions < r.clicks))).length

/-- Check 2 count: rows with negative revenue or commission. -/
def negValCount (df : List Record) : Nat :=
  (df.filter (fun r => decide (r.revenue < 0) || decide (r.commission_paid < 0))).length

/-- Check 3 count, df.isnull().sum().sum().  The embedded Record type is
total (the loader already filled every NaN), so no cell is ever missing
and the count is 0 for every RecordSet. -/
def nullsCount (_df : List Record) : Nat := 0

/-- The revenue series restricted to rows with revenue > 0 (check 4). -/
def revData (df : List Record) : List ℚ :=
  (df.filter (fun r => decide (0 < r.revenue))).map Record.revenue

/-- Check 4 outlier count over the positive-revenue series, translated
exactly from the z-score computation: mean and sample standard deviation
(pandas .std(), ddof = 1), z = (x - mean) / std, count of |z| > 3.
With fewer than 2 data points the sample std is NaN, every z is NaN and
every NaN comparison is false, so the count is 0; with std = 0 every x
equals the mean, z = 0/0 = NaN, and again the count is 0.  For std > 0,
|z| > 3 holds exactly when (x - mean)^2 > 9 * variance, which states the
comparison without leaving the rationals. -/
def revOutlierCount (revs : List ℚ) : Nat :=
  if revs.length < 2 then 0
  else
    let mean := revs.sum / (revs.length : ℚ)
    let sampleVar := ((revs.map (fun x => (x - mean) ^ 2)).sum) / ((revs.length : ℚ) - 1)
    if sampleVar = 0 then 0
    else (revs.filter (fun x => decide (9 * sampleVar < (x - mean) ^ 2))).length

/-- Issues emitted by check 1. -/
def issuesStep1 (df : List Record) : List String :=
  if invalidCtrCount df ≠ 0 then [ctrCriticalMsg (invalidCtrCount df)] else []

/-- Issues emitted by check 2. -/
def issuesStep2 (df : List Record) : List String :=
  if negValCount df ≠ 0 then [negCriticalMsg (negValCount df)] else []

/-- Issues emitted by check 3. -/
def issuesStep3 (df : List Record) : List String :=
  if 0 < nullsCount df then [nullsWarningMsg (nullsCount df)] else []

/-- Issues emitted by check 4.  The source guards with `if not
rev_data.empty`; an empty series falls into the length < 2 branch of
revOutlierCount, which already yields count 0 and emits nothing. -/
def issuesStep4 (df : List Record) : List String :=
  if 0 < revOutlierCount (revData df) then [outlierInfoMsg (revOutlierCount (revData df))] else []

/-- DataQuality.run_checks: the four checks in order, then the PASSED
issue exactly when the list would otherwise be empty. -/
def run_checks (df : List Record) : List String :=
  let issues := issuesStep1 df ++ issuesStep2 df ++ issuesStep3 df ++ issuesStep4 df
  if issues.isEmpty then [passedMsg] else issues

/-! Helper lemmas: distinguishing issue messages by their first character -/

lemma head_append (p x : String) (c : Char) (h : p.data.head? = some c) :
    (p ++ x).data.head? = some c := by
  rw [String.data_append]
  cases hp : p.data with
  | nil => rw [hp] at h; exact absurd h (by simp)
  | cons a l => rw [hp] at h; simp only [List.cons_append, List.head?_cons] at h ⊢; exact h

lemma ne_of_head (s t : String) (h : s.data.head? ≠ t.data.head?) : s ≠ t :=
  fun e => h (by rw [e])

lemma ctrCriticalMsg_head (n : Nat) : (ctrCriticalMsg n).data.head? = some 'C' :=
  head_append _ _ _ (head_append _ _ _ rfl)

lemma negCriticalMsg_head (n : Nat) : (negCriticalMsg n).data.head? = some 'C' :=
  head_append _ _ _ (head_append _ _ _ rfl)

lemma nullsWarningMsg_head (n : Nat) : (nullsWarningMsg n).data.head? = some 'W' :=
  head_append _ _ _ (head_append _ _ _ rfl)

lemma outlierInfoMsg_head (n : Nat) : (outlierInfoMsg n).data.head? = some 'I' :=
  head_append _ _ _ (head_append _ _ _ rfl)

lemma passedMsg_head : passedMsg.data.head? = some 'P' := rfl

lemma ctrCritical_ne_passed (n : Nat) : ctrCriticalMsg n ≠ passedMsg :=
  ne_of_head _ _ (by rw [ctrCriticalMsg_head, passedMsg_head]; decide)

lemma negCritical_ne_passed (n : Nat) : negCriticalMsg n ≠ passedMsg :=
  ne_of_head _ _ (by rw [negCriticalMsg_head, passedMsg_head]; decide)

lemma outlierInfo_ne_passed (n : Nat) : outlierInfoMsg n ≠ passedMsg :=
  ne_of_head _ _ (by rw [outlierInfoMsg_head, passedMsg_head]; decide)

lemma ctrCritical_ne_outlierInfo (n m : Nat) : ctrCriticalMsg n ≠ outlierInfoMsg m :=
  ne_of_head _ _ (by rw [ctrCriticalMsg_head, outlierInfoMsg_head]; decide)

lemma negCritical_ne_outlierInfo (n m : Nat) : negCriticalMsg n ≠ outlierInfoMsg m :=
  ne_of_head _ _ (by rw [negCriticalMsg_head, outlierInfoMsg_head]; decide)

lemma passed_ne_outlierInfo (m : Nat) : passedMsg ≠ outlierInfoMsg m :=
  (outlierInfo_ne_passed m).symm

/-! Structural lemmas about run_checks -/

lemma mem_issuesStep1 {df : List Record} {s : String} (h : s ∈ issuesStep1 df) :
    s = ctrCriticalMsg (invalidCtrCount df) := by
  unfold issuesStep1 at h
  split at h <;> simp_all

lemma mem_issuesStep2 {df : List Record} {s : String} (h : s ∈ issuesStep2 df) :
    s = negCriticalMsg (negValCount df) := by
  unfold issuesStep2 at h
  split at h <;> simp_all

lemma issuesStep3_eq_nil (df : List Record) : issuesStep3 df = [] := by
  simp [issuesStep3, nullsCount]

lemma mem_issuesStep4 {df : List Record} {s : String} (h : s ∈ issuesStep4 df) :
    s = outlierInfoMsg (revOutlierCount (revData df)) := by
  unfold issuesStep4 at h
  split at h <;> simp_all

lemma passed_not_mem_issues (df : List Record) :
    passedMsg ∉ issuesStep1 df ++ issuesStep2 df ++ issuesStep3 df ++ issuesStep4 df := by
  intro h
  rcases List.mem_append.1 h with h | h4
  · rcases List.mem_append.1 h with h | h3
    · rcases List.mem_append.1 h with h1 | h2
      · exact ctrCritical_ne_passed _ (mem_issuesStep1 h1).symm
      · exact negCritical_ne_passed _ (mem_issuesStep2 h2).symm
    · rw [issuesStep3_eq_nil] at h3
      exact absurd h3 (List.not_mem_nil _)
  · exact outlierInfo_ne_passed _ (mem_issuesStep4 h4).symm

lemma run_checks_of_ne_nil {df : List Record}
    (h : issuesStep1 df ++ issuesStep2 df ++ issuesStep3 df ++ issuesStep4 df ≠ []) :
    run_checks df = issuesStep1 df ++ issuesStep2 df ++ issuesStep3 df ++ issuesStep4 df := by
  unfold run_checks
  simp only [List.isEmpty_iff]
  exact if_neg h

/-! Claim theorems: SafeDivide and the overall KPI bundle -/

/-- C3: safe_divide returns x / d when d > 0 and 0.0 when d ≤ 0 (zero and
negative denominators alike, never raising — the Lean function is total);
in particular safe_divide(x, 0) = 0.0, safe_divide(x, -1) = 0.0, and
safe_divide(10, 4) = 2.5. -/
theorem c3_safe_divide_spec (x d : ℚ) :
    (0 < d → safe_div x d = x / d) ∧ (d ≤ 0 → safe_div x d = 0) ∧
    safe_div x 0 = 0 ∧ safe_div x (-1) = 0 ∧ safe_div 10 4 = 5 / 2 := by
  refine ⟨fun h => ?_, fun h => ?_, ?_, ?_, ?_⟩
  · rw [safe_div, if_pos h]
  · rw [safe_div, if_neg (not_lt.mpr h)]
  · rw [safe_div, if_neg (by norm_num)]
  · rw [safe_div, if_neg (by norm_num)]
  · rw [safe_div, if_pos (by norm_num)]; norm_num

theorem c3_safe_divide_spec_witness :
    safe_div 3 2 = 3 / 2 ∧ safe_div 3 (-2) = 0 :=
  ⟨(c3_safe_divide_spec 3 2).1 (by norm_num), (c3_safe_divide_spec 3 (-2)).2.1 (by norm_num)⟩

/-- C5: calculate_kpis on the empty RecordSet returns MetricTotals with
all five sums 0 and a KPIBundle with all five ratios 0, without raising
(the Lean embedding is a total function). -/
theorem c5_calculate_kpis_empty :
    calculate_kpis [] =
      ({ CTR := 0, Conversion_Rate := 0, EPC := 0, AOV := 0, ROI := 0 },
       { impressions := 0, clicks := 0, orders := 0, revenue := 0, commission_paid := 0 }) := by
  norm_num [calculate_kpis, aggTotals, sumQ, safe_div]

/-! Claim theorems: DataQuality.run_checks -/

/-- C7: run_checks on the empty RecordSet returns exactly the one-element
list with the PASSED issue: every check counts zero and emits nothing,
and the PASSED message is appended because the list is otherwise empty. -/
theorem c7_run_checks_empty :
    run_checks [] = ["PASSED: All data quality checks passed."] := by
  norm_num [run_checks, issuesStep1, issuesStep2, issuesStep3, issuesStep4,
    invalidCtrCount, negValCount, nullsCount, revData, revOutlierCount, passedMsg]

/-- C8: for every RecordSet containing a record with clicks > impressions,
run_checks returns a list containing the CRITICAL message carrying the
count of such records, and containing no PASSED issue. -/
theorem c8_critical_on_invalid_ctr (df : List Record)
    (h : ∃ r ∈ df, r.impressions < r.clicks) :
    ctrCriticalMsg (invalidCtrCount df) ∈ run_checks df ∧ passedMsg ∉ run_checks df := by
  have hcnt : invalidCtrCount df ≠ 0 := by
    obtain ⟨r, hr, hlt⟩ := h
    have hm : r ∈ df.filter (fun r => decide (r.impressions < r.clicks)) :=
      List.mem_filter.mpr ⟨hr, by simpa using hlt⟩
    unfold invalidCtrCount
    intro h0
    rw [List.length_eq_zero] at h0
    rw [h0] at hm
    exact absurd hm (List.not_mem_nil r)
  have h1 : issuesStep1 df = [ctrCriticalMsg (invalidCtrCount df)] := by
    simp [issuesStep1, hcnt]
  have hne : issuesStep1 df ++ issuesStep2 df ++ issuesStep3 df ++ issuesStep4 df ≠ [] := by
    simp [h1]
  rw [run_checks_of_ne_nil hne]
  refine ⟨?_, passed_not_mem_issues df⟩
  simp [h1]

/-- A RecordSet with a single record whose clicks exceed its impressions. -/
def dfC8 : List Record := [{ clicks := 20, impressions := 10 }]

theorem c8_critical_on_invalid_ctr_witness :
    invalidCtrCount dfC8 = 1 ∧
      (ctrCriticalMsg (invalidCtrCount dfC8) ∈ run_checks dfC8 ∧
        passedMsg ∉ run_checks dfC8) :=
  ⟨by norm_num [invalidCtrCount, dfC8],
   c8_critical_on_invalid_ctr dfC8
     ⟨{ clicks := 20, impressions := 10 }, by simp [dfC8], by norm_num⟩⟩

/-- The z-score pass produces no outlier when the positive-revenue series
has fewer than 2 points (sample std undefined, every z is NaN) or when
all its values are equal (std = 0, every z is 0/0 = NaN). -/
lemma revOutlierCount_eq_zero {revs : List ℚ}
    (h : revs.length < 2 ∨ ∀ x ∈ revs, ∀ y ∈ revs, x = y) :
    revOutlierCount revs = 0 := by
  unfold revOutlierCount
  by_cases hlen : revs.length < 2
  · simp [hlen]
  · rcases h with h | hall
    · exact absurd h hlen
    · have hne : revs ≠ [] := by
        intro h0
        rw [h0] at hlen
        exact hlen (by norm_num)
      obtain ⟨c, hc⟩ : ∃ c, ∀ x ∈ revs, x = c := by
        cases revs with
        | nil => exact absurd rfl hne
        | cons a l => exact ⟨a, fun x hx => hall x hx a (by simp)⟩
      have hrep : revs = List.replicate revs.length c := List.eq_replicate_of_mem hc
      have hlen0 : (revs.length : ℚ) ≠ 0 := by
        have : 2 ≤ revs.length := Nat.not_lt.mp hlen
        positivity
      have hsum : revs.sum = (revs.length : ℚ) * c := by
        conv_lhs => rw [hrep]
        rw [List.sum_replicate, nsmul_eq_mul]
      have hmean : revs.sum / (revs.length : ℚ) = c := by
        rw [hsum, mul_comm, mul_div_assoc, div_self hlen0, mul_one]
      have hsq : (revs.map (fun x => (x - revs.sum / (revs.length : ℚ)) ^ 2)).sum = 0 := by
        simp only [hmean]
        conv_lhs => rw [hrep]
        simp [List.map_replicate, List.sum_replicate]
      rw [if_neg hlen]
      simp [hsq]

/-- C6: when the positive-revenue subset has fewer than two elements, or
all its values are equal, run_checks emits no outlier INFO issue — and
since the sample standard deviation's NaN never reaches a message, no
issue in the returned list is an INFO outlier message for any count. -/
theorem c6_no_outlier_info (df : List Record)
    (h : (revData df).length < 2 ∨ ∀ x ∈ revData df, ∀ y ∈ revData df, x = y) :
    ∀ n : Nat, outlierInfoMsg n ∉ run_checks df := by
  have h4 : issuesStep4 df = [] := by
    simp [issuesStep4, revOutlierCount_eq_zero h]
  intro n hmem
  unfold run_checks at hmem
  by_cases hE : (issuesStep1 df ++ issuesStep2 df ++ issuesStep3 df ++ issuesStep4 df).isEmpty
  · rw [if_pos hE] at hmem
    simp only [List.mem_singleton] at hmem
    exact outlierInfo_ne_passed n hmem
  · rw [if_neg hE] at hmem
    rcases List.mem_append.1 hmem with hm | hm4
    · rcases List.mem_append.1 hm with hm | hm3
      · rcases List.mem_append.1 hm with hm1 | hm2
        · exact ctrCritical_ne_outlierInfo _ n (mem_issuesStep1 hm1).symm
        · exact negCritical_ne_outlierInfo _ n (mem_issuesStep2 hm2).symm
      · rw [issuesStep3_eq_nil] at hm3
        exact absurd hm3 (List.not_mem_nil _)
    · rw [h4] at hm4
      exact absurd hm4 (List.not_mem_nil _)

/-- A RecordSet whose positive-revenue subset is a single element. -/
def dfC6 : List Record := [{ revenue := 10 }]

theorem c6_no_outlier_info_witness :
    (revData dfC6).length < 2 ∧ outlierInfoMsg 1 ∉ run_checks dfC6 :=
  ⟨by norm_num [revData, dfC6],
   c6_no_outlier_info dfC6 (Or.inl (by norm_num [revData, dfC6])) 1⟩

/-! Group key extraction and the ordering of grouped rows -/

/-- The string carried by the named column of a row. -/
def getStrCell (name : String) (row : Row) : String :=
  match lookupCell name row with
  | some (.str s) => s
  | _ => ""

/-- The group key of a partner-performance row. -/
def partnerRowKey (row : Row) : String × String :=
  (getStrCell "partner_name" row, getStrCell "vertical" row)

/-- The group key of a campaign-performance row. -/
def campaignRowKey (row : Row) : String × String :=
  (getStrCell "campaign_name" row, getStrCell "landing_page_variant" row)

lemma partnerRowKey_build (df : List Record) (k : String × String) :
    partnerRowKey (fillZeroRow (partnerRawRow df k)) = k := rfl

lemma campaignRowKey_build (df : List Record) (k : String × String) :
    campaignRowKey (fillZeroRow (campaignRawRow df k)) = k := rfl

instance : IsTotal (String × String) pairLe :=
  ⟨fun a b => by
    unfold pairLe
    rcases lt_trichotomy a.1 b.1 with h | h | h
    · exact Or.inl (Or.inl h)
    · rcases le_total a.2 b.2 with h2 | h2
      · exact Or.inl (Or.inr ⟨h, h2⟩)
      · exact Or.inr (Or.inr ⟨h.symm, h2⟩)
    · exact Or.inr (Or.inl h)⟩

instance : IsTrans (String × String) pairLe :=
  ⟨fun a b c hab hbc => by
    unfold pairLe at *
    rcases hab with h | ⟨he, h2⟩ <;> rcases hbc with h' | ⟨he', h2'⟩
    · exact Or.inl (lt_trans h h')
    · exact Or.inl (he' ▸ h)
    · exact Or.inl (he ▸ h')
    · exact Or.inr ⟨he.trans he', le_trans h2 h2'⟩⟩

lemma sortKeys_perm (ks : List (String × String)) : List.Perm (sortKeys ks) ks :=
  List.perm_insertionSort pairLe ks

lemma sortKeys_sorted (ks : List (String × String)) : List.Pairwise pairLe (sortKeys ks) :=
  List.sorted_insertionSort pairLe ks

lemma partner_keys_eq (df : List Record) :
    (get_partner_performance df).map partnerRowKey = sortKeys (firstKeys partnerKey df) := by
  unfold get_partner_performance
  rw [List.map_map]
  have h : partnerRowKey ∘ (fun k => fillZeroRow (partnerRawRow df k)) = id :=
    funext fun k => partnerRowKey_build df k
  rw [h, List.map_id]

lemma campaign_keys_eq (df : List Record) :
    (get_campaign_performance df).map campaignRowKey = sortKeys (firstKeys campaignKey df) := by
  unfold get_campaign_performance
  rw [List.map_map]
  have h : campaignRowKey ∘ (fun k => fillZeroRow (campaignRawRow df k)) = id :=
    funext fun k => campaignRowKey_build df k
  rw [h, List.map_id]

/-- C2 (amended): the grouped rows appear in ascending lexicographic order
of the distinct group keys — pandas groupby sorts the keys (sort=True is
the default) — not in first-appearance order; the engine applies no other
ordering beyond this key sort. -/
theorem c2_rows_in_sorted_key_order (df : List Record) :
    ((get_partner_performance df).map partnerRowKey = sortKeys (firstKeys partnerKey df) ∧
      List.Pairwise pairLe ((get_partner_performance df).map partnerRowKey)) ∧
    ((get_campaign_performance df).map campaignRowKey = sortKeys (firstKeys campaignKey df) ∧
      List.Pairwise pairLe ((get_campaign_performance df).map campaignRowKey)) := by
  refine ⟨⟨partner_keys_eq df, ?_⟩, ⟨campaign_keys_eq df, ?_⟩⟩
  · rw [partner_keys_eq]; exact sortKeys_sorted _
  · rw [campaign_keys_eq]; exact sortKeys_sorted _

/-- Partner "B" appears before partner "A" in this RecordSet, so
first-appearance key order is [(B,V), (A,V)]. -/
def dfC2 : List Record :=
  [{ partner_name := "B", vertical := "V", campaign_name := "Y", landing_page_variant := "A" },
   { partner_name := "A", vertical := "V", campaign_name := "X", landing_page_variant := "A" }]

lemma strA_lt_strB : ("A" : String) < "B" := by
  rw [String.lt_iff_toList_lt]; decide

lemma not_pairLe_BV_AV : ¬ pairLe ("B", "V") ("A", "V") := by
  rintro (h | ⟨he, _⟩)
  · exact lt_asymm strA_lt_strB h
  · exact absurd he (by decide)

/-- C2 is false as stated: on dfC2 the key (B,V) appears first in the
input, yet get_partner_performance returns the (A,V) row first, because
pandas groupby sorts the keys. -/
theorem c2_first_appearance_order_refuted :
    firstKeys partnerKey dfC2 = [("B", "V"), ("A", "V")] ∧
    (get_partner_performance dfC2).map partnerRowKey = [("A", "V"), ("B", "V")] ∧
    (get_partner_performance dfC2).map partnerRowKey ≠ firstKeys partnerKey dfC2 := by
  have h1 : firstKeys partnerKey dfC2 = [("B", "V"), ("A", "V")] := by decide
  have h2 : (get_partner_performance dfC2).map partnerRowKey = [("A", "V"), ("B", "V")] := by
    rw [partner_keys_eq, h1]
    unfold sortKeys
    simp only [List.insertionSort, List.orderedInsert, if_neg not_pairLe_BV_AV]
  refine ⟨h1, h2, ?_⟩
  rw [h1, h2]
  decide

/-! Claim theorem: campaign rows carry no AOV column -/

lemma fillZeroRow_names (row : Row) :
    (fillZeroRow row).map Prod.fst = row.map Prod.fst := by
  simp [fillZeroRow, List.map_map, Function.comp]

/-- C9: every row of get_campaign_performance carries exactly the
(campaign_name, landing_page_variant) key, the five summed base metrics
and the four ratios CTR, Conversion_Rate, EPC, ROI — and in particular no
AOV column. -/
theorem c9_no_aov_column (df : List Record) (row : Row)
    (h : row ∈ get_campaign_performance df) :
    row.map Prod.fst = ["campaign_name", "landing_page_variant", "impressions", "clicks",
      "orders", "revenue", "commission_paid", "CTR", "Conversion_Rate", "EPC", "ROI"] ∧
    ∀ c ∈ row, c.1 ≠ "AOV" := by
  obtain ⟨k, _, rfl⟩ := List.mem_map.1 h
  have hnames : (fillZeroRow (campaignRawRow df k)).map Prod.fst =
      ["campaign_name", "landing_page_variant", "impressions", "clicks",
        "orders", "revenue", "commission_paid", "CTR", "Conversion_Rate", "EPC", "ROI"] := by
    rw [fillZeroRow_names]; rfl
  refine ⟨hnames, fun c hc hAov => ?_⟩
  have hmem : c.1 ∈ (fillZeroRow (campaignRawRow df k)).map Prod.fst :=
    List.mem_map_of_mem Prod.fst hc
  rw [hnames, hAov] at hmem
  revert hmem
  decide

/-- A one-record RecordSet exercising the campaign grouping. -/
def dfC9 : List Record := [{ campaign_name := "X", landing_page_variant := "A" }]

theorem c9_no_aov_column_witness :
    fillZeroRow (campaignRawRow dfC9 ("X", "A")) ∈ get_campaign_performance dfC9 ∧
      ((fillZeroRow (campaignRawRow dfC9 ("X", "A"))).map Prod.fst =
          ["campaign_name", "landing_page_variant", "impressions", "clicks",
            "orders", "revenue", "commission_paid", "CTR", "Conversion_Rate", "EPC", "ROI"] ∧
        ∀ c ∈ fillZeroRow (campaignRawRow dfC9 ("X", "A")), c.1 ≠ "AOV") := by
  have hm : fillZeroRow (campaignRawRow dfC9 ("X", "A")) ∈ get_campaign_performance dfC9 := by
    unfold get_campaign_performance
    refine List.mem_map_of_mem _ ?_
    have : firstKeys campaignKey dfC9 = [("X", "A")] := by decide
    rw [(sortKeys_perm _).mem_iff, this]
    simp
  exact ⟨hm, c9_no_aov_column dfC9 _ hm⟩

/-! Partition of the RecordSet by group keys, and the sum of groups -/

lemma firstKeys_aux_subset (keyf : Record → String × String) :
    ∀ (df : List Record) (acc : List (String × String)),
      acc ⊆ df.foldl (fun ks r => if keyf r ∈ ks then ks else ks ++ [keyf r]) acc := by
  intro df
  induction df with
  | nil => intro acc; exact fun x hx => hx
  | cons r rest ih =>
    intro acc
    refine List.Subset.trans ?_ (ih _)
    by_cases h : keyf r ∈ acc
    · simp [h]
    · simp only [if_neg h]
      exact List.subset_append_left _ _

lemma mem_firstKeys_aux (keyf : Record → String × String) :
    ∀ (df : List Record) (acc : List (String × String)) (r : Record), r ∈ df →
      keyf r ∈ df.foldl (fun ks r => if keyf r ∈ ks then ks else ks ++ [keyf r]) acc := by
  intro df
  induction df with
  | nil => intro acc r hr; cases hr
  | cons a rest ih =>
    intro acc r hr
    rcases List.mem_cons.1 hr with rfl | hr
    · refine firstKeys_aux_subset keyf rest _ ?_
      by_cases h : keyf r ∈ acc
      · simp [h]
      · simp [if_neg h]
    · exact ih _ r hr

lemma nodup_firstKeys_aux (keyf : Record → String × String) :
    ∀ (df : List Record) (acc : List (String × String)), acc.Nodup →
      (df.foldl (fun ks r => if keyf r ∈ ks then ks else ks ++ [keyf r]) acc).Nodup := by
  intro df
  induction df with
  | nil => intro acc h; exact h
  | cons r rest ih =>
    intro acc h
    refine ih _ ?_
    by_cases hm : keyf r ∈ acc
    · simpa [hm] using h
    · simp only [if_neg hm]
      simp [List.nodup_append, h, hm]

lemma nodup_firstKeys (keyf : Record → String × String) (df : List Record) :
    (firstKeys keyf df).Nodup :=
  nodup_firstKeys_aux keyf df [] List.nodup_nil

lemma mem_firstKeys (keyf : Record → String × String) {df : List Record} {r : Record}
    (hr : r ∈ df) : keyf r ∈ firstKeys keyf df :=
  mem_firstKeys_aux keyf df [] r hr

lemma sum_if_eq {α : Type} [DecidableEq α] {ks : List α} {a : α}
    (hnd : ks.Nodup) (ha : a ∈ ks) (c : ℚ) :
    (ks.map (fun k => if a = k then c else 0)).sum = c := by
  induction ks with
  | nil => cases ha
  | cons k₀ ks ih =>
    rcases List.mem_cons.1 ha with rfl | hmem
    · simp only [List.map_cons, List.sum_cons, if_pos rfl]
      have hz : (ks.map (fun k => if a = k then c else 0)).sum = 0 := by
        refine List.sum_eq_zero fun x hx => ?_
        obtain ⟨k, hk, rfl⟩ := List.mem_map.1 hx
        rw [if_neg]
        rintro rfl
        exact (List.nodup_cons.1 hnd).1 hk
      rw [hz, add_zero]
      simp
    · have hk0 : a ≠ k₀ := by
        rintro rfl
        exact (List.nodup_cons.1 hnd).1 hmem
      simp only [List.map_cons, List.sum_cons, if_neg hk0]
      rw [zero_add, ih (List.nodup_cons.1 hnd).2 hmem]

/-- Summing any per-group sum over a duplicate-free, complete key list
gives the sum over the whole RecordSet: the group keys partition it. -/
lemma groups_sum (keyf : Record → String × String) (f : Record → ℚ) :
    ∀ (df : List Record) (ks : List (String × String)), ks.Nodup →
      (∀ r ∈ df, keyf r ∈ ks) →
      (ks.map (fun k => sumQ f (groupOf keyf df k))).sum = sumQ f df := by
  intro df
  induction df with
  | nil =>
    intro ks _ _
    have h0 : ∀ x ∈ ks.map (fun k => sumQ f (groupOf keyf [] k)), x = 0 := by
      intro x hx
      obtain ⟨k, _, rfl⟩ := List.mem_map.1 hx
      simp [groupOf, sumQ]
    rw [List.sum_eq_zero h0]
    simp [sumQ]
  | cons r rest ih =>
    intro ks hnd hmem
    have hsplit : ∀ k, sumQ f (groupOf keyf (r :: rest) k) =
        (if keyf r = k then f r else 0) + sumQ f (groupOf keyf rest k) := by
      intro k
      by_cases h : keyf r = k <;>
        simp [groupOf, sumQ, List.filter_cons, h]
    calc (ks.map (fun k => sumQ f (groupOf keyf (r :: rest) k))).sum
        = (ks.map (fun k =>
            (if keyf r = k then f r else 0) + sumQ f (groupOf keyf rest k))).sum := by
          simp only [hsplit]
      _ = (ks.map (fun k => if keyf r = k then f r else 0)).sum
            + (ks.map (fun k => sumQ f (groupOf keyf rest k))).sum := by
          rw [← List.sum_map_add]
      _ = f r + sumQ f rest := by
          rw [sum_if_eq hnd (hmem r (List.mem_cons_self r rest)) (f r),
            ih ks hnd (fun x hx => hmem x (List.mem_cons_of_mem r hx))]
      _ = sumQ f (r :: rest) := by simp [sumQ]

/-- The rational carried by a (possibly missing) cell: finite values read
back exactly, anything else reads 0. -/
def cellQ : Option CellVal → ℚ
  | some (.num (.fin q)) => q
  | _ => 0

/-- Sum of the named column down a grouped-performance table. -/
def colSum (name : String) (table : List Row) : ℚ :=
  (table.map (fun row => cellQ (lookupCell name row))).sum

lemma partner_colSum_eq (df : List Record) (name : String) (f : Record → ℚ)
    (h : ∀ k, cellQ (lookupCell name (fillZeroRow (partnerRawRow df k)))
        = sumQ f (groupOf partnerKey df k)) :
    colSum name (get_partner_performance df) = sumQ f df := by
  unfold colSum get_partner_performance
  rw [List.map_map]
  simp only [Function.comp_def]
  rw [List.map_congr_left (fun k _ => h k)]
  rw [((sortKeys_perm (firstKeys partnerKey df)).map
        (fun k => sumQ f (groupOf partnerKey df k))).sum_eq]
  exact groups_sum partnerKey f df _ (nodup_firstKeys partnerKey df)
    (fun r hr => mem_firstKeys partnerKey hr)

/-- C4: summing each of the five base-metric columns over the rows of
get_partner_performance gives exactly the corresponding component of the
MetricTotals of calculate_kpis, because the group keys partition the
records. -/
theorem c4_group_sums_match_totals (df : List Record) :
    colSum "impressions" (get_partner_performance df) = (calculate_kpis df).2.impressions ∧
    colSum "clicks" (get_partner_performance df) = (calculate_kpis df).2.clicks ∧
    colSum "orders" (get_partner_performance df) = (calculate_kpis df).2.orders ∧
    colSum "revenue" (get_partner_performance df) = (calculate_kpis df).2.revenue ∧
    colSum "commission_paid" (get_partner_performance df)
      = (calculate_kpis df).2.commission_paid := by
  refine ⟨?_, ?_, ?_, ?_, ?_⟩
  · exact partner_colSum_eq df "impressions" _ (fun k => rfl)
  · exact partner_colSum_eq df "clicks" _ (fun k => rfl)
  · exact partner_colSum_eq df "orders" _ (fun k => rfl)
  · exact partner_colSum_eq df "revenue" _ (fun k => rfl)
  · exact partner_colSum_eq df "commission_paid" _ (fun k => rfl)

/-! The fillna pass zeroes NaN but lets infinity through -/

/-- A single group whose rows all have clicks = 0 but a positive order
count: Conversion_Rate divides 1 by 0. -/
def dfC1 : List Record :=
  [{ partner_name := "P", vertical := "V", impressions := 10, clicks := 0, orders := 1 }]

/-- C1 fails on the code: on dfC1 (one group, clicks = 0 everywhere,
orders = 1) the returned Conversion_Rate is +infinity, not 0 — pandas
fillna(0) replaces only NaN, never ±infinity, although the source
comment "Handle Inf/NaN" (and the claim) promise both.  The NaN cells
(EPC = 0/0) and the ordinary zero ratio (CTR = 0/10) do come back 0. -/
theorem c1_inf_survives_fillna :
    (get_partner_performance dfC1).map (lookupCell "Conversion_Rate")
        = [some (.num .posInf)] ∧
    (get_partner_performance dfC1).map (lookupCell "EPC")
        = [some (.num (.fin 0))] ∧
    (get_partner_performance dfC1).map (lookupCell "CTR")
        = [some (.num (.fin 0))] := by
  refine ⟨?_, ?_, ?_⟩ <;>
    · norm_num [get_partner_performance, sortKeys, firstKeys, partnerKey, dfC1,
        List.insertionSort, List.orderedInsert, fillZeroRow, fillZeroCell, fillZero,
        partnerRawRow, groupOf, sumQ, fdiv, lookupCell]
      decide

/-! Negative group commission and the two zero-handling strategies -/

lemma lookup_roi (df : List Record) (k : String × String) :
    lookupCell "ROI" (fillZeroRow (partnerRawRow df k)) =
      some (.num (fillZero (fdiv
        (sumQ (fun r => r.revenue) (groupOf partnerKey df k)
          - sumQ (fun r => r.commission_paid) (groupOf partnerKey df k))
        (sumQ (fun r => r.commission_paid) (groupOf partnerKey df k))))) := rfl

/-- C10 (amended): when a (partner_name, vertical) group's summed
commission is strictly negative, get_partner_performance keeps for that
group the finite quotient ROI = (revenue − commission) / commission,
untouched by the fillna pass, and that quotient is nonzero whenever the
group's revenue differs from its commission; calculate_kpis instead
reports ROI = 0.0 whenever the overall summed commission is non-positive,
because safe_divide maps every non-positive denominator to 0.0. -/
theorem c10_negative_group_commission (df : List Record) (k : String × String)
    (hk : ∃ r ∈ df, partnerKey r = k)
    (hneg : sumQ (fun r => r.commission_paid) (groupOf partnerKey df k) < 0) :
    (fillZeroRow (partnerRawRow df k) ∈ get_partner_performance df ∧
      lookupCell "ROI" (fillZeroRow (partnerRawRow df k)) =
        some (.num (.fin ((sumQ (fun r => r.revenue) (groupOf partnerKey df k)
            - sumQ (fun r => r.commission_paid) (groupOf partnerKey df k))
          / sumQ (fun r => r.commission_paid) (groupOf partnerKey df k))))) ∧
    (sumQ (fun r => r.revenue) (groupOf partnerKey df k)
        ≠ sumQ (fun r => r.commission_paid) (groupOf partnerKey df k) →
      (sumQ (fun r => r.revenue) (groupOf partnerKey df k)
          - sumQ (fun r => r.commission_paid) (groupOf partnerKey df k))
        / sumQ (fun r => r.commission_paid) (groupOf partnerKey df k) ≠ 0) ∧
    (sumQ (fun r => r.commission_paid) df ≤ 0 → (calculate_kpis df).1.ROI = 0) := by
  have hne : sumQ (fun r => r.commission_paid) (groupOf partnerKey df k) ≠ 0 :=
    ne_of_lt hneg
  refine ⟨⟨?_, ?_⟩, ?_, ?_⟩
  · obtain ⟨r, hr, hkr⟩ := hk
    have hmem : k ∈ firstKeys partnerKey df := hkr ▸ mem_firstKeys partnerKey hr
    unfold get_partner_performance
    exact List.mem_map_of_mem _ ((sortKeys_perm _).mem_iff.2 hmem)
  · rw [lookup_roi]
    unfold fdiv
    rw [if_neg hne]
    rfl
  · intro hrc
    exact div_ne_zero (sub_ne_zero.mpr hrc) hne
  · intro htot
    show safe_div (sumQ (fun r => r.revenue) df - sumQ (fun r => r.commission_paid) df)
      (sumQ (fun r => r.commission_paid) df) = 0
    unfold safe_div
    rw [if_neg (not_lt.mpr htot)]

/-- One group with revenue = commission = -5: grouped ROI is 0 and agrees
with calculate_kpis. -/
def dfC10a : List Record :=
  [{ partner_name := "P", vertical := "V", revenue := -5, commission_paid := -5 }]

/-- Two groups: (P,V) has commission -5, but the overall commission is
95, so calculate_kpis reports a nonzero ROI. -/
def dfC10b : List Record :=
  [{ partner_name := "P", vertical := "V", revenue := 0, commission_paid := -5 },
   { partner_name := "Q", vertical := "V", revenue := 200, commission_paid := 100 }]

/-- C10 is false as stated: on dfC10a a group's commission is negative
yet the grouped ROI is the zero quotient and coincides with the
calculate_kpis ROI (no disagreement); on dfC10b a group's commission is
negative yet calculate_kpis reports ROI = 21/19, not 0.0. -/
theorem c10_as_stated_refuted :
    (sumQ (fun r => r.commission_paid) (groupOf partnerKey dfC10a ("P", "V")) < 0 ∧
      (get_partner_performance dfC10a).map (lookupCell "ROI") = [some (.num (.fin 0))] ∧
      (calculate_kpis dfC10a).1.ROI = 0) ∧
    (sumQ (fun r => r.commission_paid) (groupOf partnerKey dfC10b ("P", "V")) < 0 ∧
      (calculate_kpis dfC10b).1.ROI = 21 / 19 ∧ (calculate_kpis dfC10b).1.ROI ≠ 0) := by
  refine ⟨⟨?_, ?_, ?_⟩, ?_, ?_, ?_⟩ <;>
    · norm_num [get_partner_performance, sortKeys, firstKeys, partnerKey,
        dfC10a, dfC10b, List.insertionSort, List.orderedInsert, fillZeroRow,
        fillZeroCell, fillZero, partnerRawRow, groupOf, sumQ, fdiv, lookupCell,
        calculate_kpis, aggTotals, safe_div]
      try decide

/-- A single-group RecordSet with revenue 100 and commission -5. -/
def dfC10 : List Record :=
  [{ partner_name := "P", vertical := "V", revenue := 100, commission_paid := -5 }]

theorem c10_negative_group_commission_witness :
    sumQ (fun r => r.commission_paid) (groupOf partnerKey dfC10 ("P", "V")) < 0 ∧
    ((fillZeroRow (partnerRawRow dfC10 ("P", "V")) ∈ get_partner_performance dfC10 ∧
      lookupCell "ROI" (fillZeroRow (partnerRawRow dfC10 ("P", "V"))) =
        some (.num (.fin ((sumQ (fun r => r.revenue) (groupOf partnerKey dfC10 ("P", "V"))
            - sumQ (fun r => r.commission_paid) (groupOf partnerKey dfC10 ("P", "V")))
          / sumQ (fun r => r.commission_paid) (groupOf partnerKey dfC10 ("P", "V")))))) ∧
    (sumQ (fun r => r.revenue) (groupOf partnerKey dfC10 ("P", "V"))
        ≠ sumQ (fun r => r.commission_paid) (groupOf partnerKey dfC10 ("P", "V")) →
      (sumQ (fun r => r.revenue) (groupOf partnerKey dfC10 ("P", "V"))
          - sumQ (fun r => r.commission_paid) (groupOf partnerKey dfC10 ("P", "V")))
        / sumQ (fun r => r.commission_paid) (groupOf partnerKey dfC10 ("P", "V")) ≠ 0) ∧
    (sumQ (fun r => r.commission_paid) dfC10 ≤ 0 → (calculate_kpis dfC10).1.ROI = 0)) :=
  ⟨by norm_num [sumQ, groupOf, partnerKey, dfC10],
   c10_negative_group_commission dfC10 ("P", "V")
     ⟨{ partner_name := "P", vertical := "V", revenue := 100, commission_paid := -5 },
       by simp [dfC10], rfl⟩
     (by norm_num [sumQ, groupOf, partnerKey, dfC10])⟩

end Affiliate
